import Mathlib

/-
  Verification of the multi-agent blog-generation pipeline
  (research, planning, generation, SEO optimization orchestrated over a
  shared mutable context).  The Python sources are shallowly embedded:
  dataclasses become structures, the dynamically-typed AgentContext fields
  become values of an inductive PyVal type, every agent method becomes a
  pure function threading the context explicitly, and the wall clock and
  the gathering collaborator become parameters of the pipeline function.
-/

namespace MultiAgent

/-- Python dict values that occur in this program: strings, ints, rationals
(standing for Python floats), lists of strings, keyword-density maps, nested
string-keyed dicts, and the three record types stored into metadata. -/
inductive PyVal where
  | none
  | str (s : String)
  | int (n : Int)
  | rat (q : ℚ)
  | strList (xs : List String)
  | qdict (entries : List (String × ℚ))
  | dict (entries : List (String × PyVal))
  | outlineVal (title meta_description : String)
  | postVal (title content : String)
  | optPostVal (title content : String)

/-- Association-list read, modelling Python dict lookup (first matching key). -/
def dictGet {α : Type} (d : List (String × α)) (k : String) : Option α :=
  match d with
  | [] => Option.none
  | p :: rest => if p.1 == k then Option.some p.2 else dictGet rest k

/-- Association-list write, modelling Python dict assignment d[k] = v:
replaces the entry when the key is present (keeping its position),
otherwise appends the new entry at the end. -/
def dictSet {α : Type} (d : List (String × α)) (k : String) (v : α) : List (String × α) :=
  match d with
  | [] => [(k, v)]
  | p :: rest => if p.1 == k then (k, v) :: rest else p :: dictSet rest k v

/-- AgentContext from base_agent.py: topic, keywords, target_word_count and
the open metadata map.  The fields hold PyVal because update_context assigns
to them dynamically via setattr.  The timestamp field is not modelled (wall
clock); no code path reads or writes it. -/
structure AgentContext where
  topic : PyVal
  keywords : PyVal
  target_word_count : PyVal
  metadata : PyVal

/-- hasattr(self.context, key) for the five dataclass fields of AgentContext. -/
def hasattrCtx (key : String) : Bool :=
  key == "topic" || key == "keywords" || key == "target_word_count" ||
  key == "timestamp" || key == "metadata"

/-- setattr(self.context, key, value) on AgentContext.  Assignment to the
unmodelled timestamp field leaves the modelled state unchanged. -/
def setattrCtx (c : AgentContext) (key : String) (v : PyVal) : AgentContext :=
  if key == "topic" then { c with topic := v }
  else if key == "keywords" then { c with keywords := v }
  else if key == "target_word_count" then { c with target_word_count := v }
  else if key == "metadata" then { c with metadata := v }
  else c

/-- BaseAgent.update_context: for each kwarg in order, assign to the record
field when the name is an AgentContext attribute, otherwise create the
metadata dict if it is still None, otherwise assign the key in the metadata
dict. -/
def update_context (ctx : AgentContext) (kwargs : List (String × PyVal)) : AgentContext :=
  kwargs.foldl
    (fun c kv =>
      if hasattrCtx kv.1 then setattrCtx c kv.1 kv.2
      else
        match c.metadata with
        | PyVal.none => { c with metadata := PyVal.dict [(kv.1, kv.2)] }
        | PyVal.dict d => { c with metadata := PyVal.dict (dictSet d kv.1 kv.2) }
        | _ => c)
    ctx

/-- Lookup of a key in the metadata map of a context (Option.none when the
metadata is still None or the key is absent). -/
def metaLookup (ctx : AgentContext) (k : String) : Option PyVal :=
  match ctx.metadata with
  | PyVal.dict d => dictGet d k
  | _ => Option.none

/-- The fresh context built by BlogGenerationOrchestrator.__init__ (and by
BaseAgent when no context is supplied): empty topic, no keywords, the given
target word count, metadata None. -/
def initContext (target_word_count : Int) : AgentContext :=
  { topic := PyVal.str ""
    keywords := PyVal.strList []
    target_word_count := PyVal.int target_word_count
    metadata := PyVal.none }

/-- BlogGenerationOrchestrator.get_generation_status: the status snapshot
dict with the four context fields. -/
def get_generation_status (ctx : AgentContext) : List (String × PyVal) :=
  [("topic", ctx.topic), ("keywords", ctx.keywords),
   ("target_word_count", ctx.target_word_count), ("metadata", ctx.metadata)]

/- ----------------------------------------------------------------- -/
/- Research stage (research_agent.py)                                 -/
/- ----------------------------------------------------------------- -/

/-- The record returned by ResearchAgent._gather_information: related
topics, key points, sources and keywords.  In the source this is a plain
dict with exactly these four keys. -/
structure ResearchData where
  related_topics : List String
  key_points : List String
  sources : List String
  keywords : List String

/-- The dict returned by ResearchAgent.execute. -/
structure ResearchResult where
  trending_topics : List String
  selected_topic : String
  key_findings : List String
  sources : List String
  keywords : List String

/-- The placeholder body of ResearchAgent._gather_information: a constant
record, independent of the topic argument. -/
def gather_information (_topic : String) : ResearchData :=
  { related_topics :=
      ["Future of Remote Work", "Remote Team Management", "Virtual Collaboration Tools"]
    key_points :=
      ["Increased productivity in remote settings",
       "Importance of work-life balance",
       "Technology requirements for remote work",
       "Communication challenges and solutions",
       "Best practices for virtual team building"]
    sources :=
      ["Harvard Business Review", "Society for Human Resource Management",
       "LinkedIn Workplace Research"]
    keywords :=
      ["remote work", "virtual teams", "work from home", "remote collaboration",
       "digital workplace"] }

/-- Python max(xs, key=score) over candidate (title, relevance_score) pairs:
fold that keeps the current best and replaces it only on a strictly greater
score, hence returns the first element attaining the maximum. -/
def pyMaxBy (xs : List (String × ℚ)) : Option (String × ℚ) :=
  match xs with
  | [] => Option.none
  | x :: rest => Option.some (rest.foldl (fun best y => if y.2 > best.2 then y else best) x)

/-- The hardcoded candidate list of ResearchAgent._find_trending_topics. -/
def trending_topics_list : List (String × ℚ) :=
  [("Remote Work Best Practices 2024", 0.95),
   ("AI in HR: Transforming Recruitment", 0.92),
   ("Employee Well-being Strategies", 0.88)]

/-- ResearchAgent._find_trending_topics: the most relevant candidate,
selected with Python max over the relevance scores. -/
def find_trending_topics : String × ℚ :=
  (pyMaxBy trending_topics_list).getD ("", 0)

/-- Python truthiness of the optional query string: None and the empty
string are falsy. -/
def isFalsyStrOpt : Option String → Bool
  | Option.none => true
  | Option.some s => s == ""

/-- The query actually researched: the top trending title when the query
argument is falsy, otherwise the query itself. -/
def effectiveQuery (query : Option String) : String :=
  if isFalsyStrOpt query then find_trending_topics.1 else query.getD ""

/-- ResearchAgent.execute, parametrized by the _gather_information
collaborator: resolves the query (writing the selected trending topic into
context.topic when the query was falsy), gathers information, builds the
result dict, and writes keywords plus a metadata snapshot into the context. -/
def researchExecute (gather : String → ResearchData) (query : Option String)
    (ctx : AgentContext) : ResearchResult × AgentContext :=
  let q := effectiveQuery query
  let ctx1 :=
    if isFalsyStrOpt query then
      update_context ctx [("topic", PyVal.str find_trending_topics.1)]
    else ctx
  let rd := gather q
  let result : ResearchResult :=
    { trending_topics := rd.related_topics
      selected_topic := q
      key_findings := rd.key_points
      sources := rd.sources
      keywords := rd.keywords }
  let ctx2 := update_context ctx1
    [("keywords", PyVal.strList rd.keywords),
     ("metadata", PyVal.dict
        [("sources", PyVal.strList rd.sources),
         ("key_findings", PyVal.strList rd.key_points)])]
  (result, ctx2)

/- ----------------------------------------------------------------- -/
/- Planning stage (content_planning_agent.py)                         -/
/- ----------------------------------------------------------------- -/

/-- A subsection dict created by ContentPlanningAgent._create_sections. -/
structure Subsection where
  title : String
  type : String
  target_word_count : Nat

/-- A section dict created by ContentPlanningAgent._create_sections: the
introduction and conclusion carry key_points and no subsections, the main
sections carry subsections and no key_points. -/
structure Section where
  title : String
  type : String
  target_word_count : Nat
  key_points : Option (List String)
  subsections : Option (List Subsection)

/-- BlogOutline from content_planning_agent.py. -/
structure BlogOutline where
  title : String
  meta_description : String
  sections : List Section
  target_keywords : List String
  estimated_word_count : Nat

/-- ContentPlanningAgent._generate_title. -/
def generate_title (topic : String) : String :=
  "The Complete Guide to " ++ topic ++ ": Strategies for 2024"

/-- Python str.lower, modelled per character over the character list (the
strings of this program are ASCII). -/
def pyLower (s : String) : String :=
  String.mk (s.data.map Char.toLower)

/-- ContentPlanningAgent._generate_meta_description: joins the first two
key points, lowercased. -/
def generate_meta_description (topic : String) (key_points : List String) : String :=
  "Discover the latest insights and best practices for " ++ topic ++
  ". Learn expert strategies for " ++
  pyLower (String.intercalate ", " (key_points.take 2)) ++
  " and more in this comprehensive guide."

/-- The fixed introduction section. -/
def introSection : Section :=
  { title := "Introduction", type := "section", target_word_count := 200
    key_points := Option.some ["Context setting", "Problem statement", "Article overview"]
    subsections := Option.none }

/-- The main section built for one key point, with its two fixed
subsections. -/
def mainSection (point : String) : Section :=
  { title := point, type := "section", target_word_count := 300
    key_points := Option.none
    subsections := Option.some
      [{ title := "Current Trends", type := "subsection", target_word_count := 150 },
       { title := "Best Practices", type := "subsection", target_word_count := 150 }] }

/-- The fixed conclusion section. -/
def conclusionSection : Section :=
  { title := "Conclusion", type := "section", target_word_count := 200
    key_points := Option.some
      ["Summary of key points", "Future implications", "Call to action"]
    subsections := Option.none }

/-- ContentPlanningAgent._create_sections: introduction, one main section
per key point, conclusion. -/
def create_sections (_topic : String) (key_points : List String) : List Section :=
  introSection :: (key_points.map mainSection ++ [conclusionSection])

/-- ContentPlanningAgent._calculate_word_count: sums each section target
word count and, inside the same loop, the target word counts of its
subsections (empty list default when absent). -/
def calculate_word_count (sections : List Section) : Nat :=
  sections.foldl
    (fun total s =>
      (s.subsections.getD []).foldl (fun t ss => t + ss.target_word_count)
        (total + s.target_word_count))
    0

/-- ContentPlanningAgent.execute: builds the outline from the research
result and writes the outline and meta description into context metadata. -/
def planningExecute (research : ResearchResult) (ctx : AgentContext) :
    BlogOutline × AgentContext :=
  let topic := research.selected_topic
  let key_points := research.key_findings
  let meta_description := generate_meta_description topic key_points
  let sections := create_sections topic key_points
  let estimated_word_count := calculate_word_count sections
  let outline : BlogOutline :=
    { title := generate_title topic
      meta_description := meta_description
      sections := sections
      target_keywords := research.keywords
      estimated_word_count := estimated_word_count }
  let ctx1 := update_context ctx
    [("metadata", PyVal.dict
        [("outline", PyVal.outlineVal outline.title outline.meta_description),
         ("meta_description", PyVal.str meta_description)])]
  (outline, ctx1)

/- ----------------------------------------------------------------- -/
/- Generation stage (content_generation_agent.py)                     -/
/- ----------------------------------------------------------------- -/

/-- BlogPost from content_generation_agent.py. -/
structure BlogPost where
  title : String
  meta_description : String
  content : String
  word_count : Nat
  keywords : List String
  sources : List String

/-- Whitespace recognized by Python str.split with no arguments (ASCII). -/
def isPySpace (c : Char) : Bool :=
  c == ' ' || c == '\t' || c == '\n' || c == '\r' ||
  c == Char.ofNat 11 || c == Char.ofNat 12

/-- Worker for Python str.split with no arguments: cur accumulates the
current token in reverse; runs of whitespace separate tokens and produce no
empty tokens. -/
def splitWsAux (cur : List Char) : List Char → List (List Char)
  | [] => if cur.isEmpty then [] else [cur.reverse]
  | c :: rest =>
      if isPySpace c then
        if cur.isEmpty then splitWsAux [] rest
        else cur.reverse :: splitWsAux [] rest
      else splitWsAux (c :: cur) rest

/-- Python content.split(): the list of maximal non-whitespace runs. -/
def pySplit (s : String) : List String :=
  (splitWsAux [] s.data).map (fun cs => String.mk cs)

/-- Independent specification of the whitespace-token count: the number of
positions at which a non-whitespace character follows whitespace or the
start of the string. -/
def countTokensAux (prevSpace : Bool) : List Char → Nat
  | [] => 0
  | c :: rest =>
      if isPySpace c then countTokensAux true rest
      else (if prevSpace then 1 else 0) + countTokensAux false rest

/-- The whitespace-token count of a string. -/
def whitespaceTokenCount (s : String) : Nat :=
  countTokensAux true s.data

/-- ContentGenerationAgent._generate_section_content: a heading line for
the section, then either the key-point blocks or the subsection blocks
(Python truthiness: an absent or empty list renders nothing), joined with
single newlines. -/
def generate_section_content (s : Section) (_research : ResearchResult) : String :=
  let base := ["# " ++ s.title ++ "\n"]
  let kpParts :=
    match s.key_points with
    | Option.some pts =>
        if pts.isEmpty then []
        else pts.flatMap (fun point =>
          ["## " ++ point ++ "\n", "Content about " ++ pyLower point ++ "...\n"])
    | Option.none => []
  let ssParts :=
    match s.subsections with
    | Option.some subs =>
        if subs.isEmpty then []
        else subs.flatMap (fun sub =>
          ["## " ++ sub.title ++ "\n", "Content about " ++ pyLower sub.title ++ "...\n"])
    | Option.none => []
  String.intercalate "\n" (base ++ kpParts ++ ssParts)

/-- ContentGenerationAgent.execute: renders every section, joins the blocks
with a blank line, recomputes the word count from the final content, builds
the BlogPost (sources passed through from the research result), and writes
the post and the actual word count into context metadata. -/
def generationExecute (outline : BlogOutline) (research : ResearchResult)
    (ctx : AgentContext) : BlogPost × AgentContext :=
  let content_sections := outline.sections.map (fun s => generate_section_content s research)
  let full_content := String.intercalate "\n\n" content_sections
  let word_count := (pySplit full_content).length
  let blog_post : BlogPost :=
    { title := outline.title
      meta_description := outline.meta_description
      content := full_content
      word_count := word_count
      keywords := outline.target_keywords
      sources := research.sources }
  let ctx1 := update_context ctx
    [("metadata", PyVal.dict
        [("blog_post", PyVal.postVal blog_post.title blog_post.content),
         ("actual_word_count", PyVal.int (Int.ofNat word_count))])]
  (blog_post, ctx1)

/- ----------------------------------------------------------------- -/
/- Optimization stage (seo_optimization_agent.py)                     -/
/- ----------------------------------------------------------------- -/

/-- SEOOptimizedPost from seo_optimization_agent.py. -/
structure SEOOptimizedPost where
  title : String
  meta_description : String
  content : String
  word_count : Nat
  keywords : List String
  sources : List String
  keyword_density : List (String × ℚ)
  readability_score : ℚ

/-- SEOOptimizationAgent._optimize_title: returns the title unchanged. -/
def optimize_title (title : String) : String := title

/-- SEOOptimizationAgent._optimize_meta_description: returns it unchanged. -/
def optimize_meta_description (meta_description : String) : String := meta_description

/-- SEOOptimizationAgent._optimize_content: returns the content unchanged. -/
def optimize_content (content : String) (_keywords : List String) : String := content

/-- SEOOptimizationAgent._calculate_keyword_density: the dict comprehension
mapping every keyword to the constant 0.02. -/
def calculate_keyword_density (_content : String) (keywords : List String) :
    List (String × ℚ) :=
  keywords.foldl (fun d k => dictSet d k 0.02) []

/-- SEOOptimizationAgent._calculate_readability_score: the constant 75.0. -/
def calculate_readability_score (_content : String) : ℚ := 75

/-- SEOOptimizationAgent.execute: identity transforms on title, meta
description and content, recomputed word count, keyword density and
readability score, with a metadata snapshot written into the context. -/
def seoExecute (blog_post : BlogPost) (ctx : AgentContext) :
    SEOOptimizedPost × AgentContext :=
  let optimized_title := optimize_title blog_post.title
  let optimized_meta := optimize_meta_description blog_post.meta_description
  let optimized_content := optimize_content blog_post.content blog_post.keywords
  let keyword_density := calculate_keyword_density optimized_content blog_post.keywords
  let readability_score := calculate_readability_score optimized_content
  let optimized_post : SEOOptimizedPost :=
    { title := optimized_title
      meta_description := optimized_meta
      content := optimized_content
      word_count := (pySplit optimized_content).length
      keywords := blog_post.keywords
      sources := blog_post.sources
      keyword_density := keyword_density
      readability_score := readability_score }
  let ctx1 := update_context ctx
    [("metadata", PyVal.dict
        [("optimized_post", PyVal.optPostVal optimized_post.title optimized_post.content),
         ("keyword_density", PyVal.qdict keyword_density),
         ("readability_score", PyVal.rat readability_score)])]
  (optimized_post, ctx1)

/- ----------------------------------------------------------------- -/
/- Orchestrator (orchestrator.py)                                     -/
/- ----------------------------------------------------------------- -/

/-- BlogGenerationResult from orchestrator.py. -/
structure BlogGenerationResult where
  title : String
  meta_description : String
  content : String
  word_count : Nat
  keywords : List String
  sources : List String
  keyword_density : List (String × ℚ)
  readability_score : ℚ
  generation_time : ℚ

/-- BlogGenerationOrchestrator.generate_blog_post, parametrized by the
gathering collaborator and by the measured wall-clock elapsed seconds
(the only non-deterministic inputs of the pipeline): runs the four stages
in order over the shared context and assembles the result. -/
def generate_blog_post_with (gather : String → ResearchData) (generation_time : ℚ)
    (topic : Option String) (ctx : AgentContext) : BlogGenerationResult × AgentContext :=
  let s1 := researchExecute gather topic ctx
  let s2 := planningExecute s1.1 s1.2
  let s3 := generationExecute s2.1 s1.1 s2.2
  let s4 := seoExecute s3.1 s3.2
  ({ title := s4.1.title
     meta_description := s4.1.meta_description
     content := s4.1.content
     word_count := s4.1.word_count
     keywords := s4.1.keywords
     sources := s4.1.sources
     keyword_density := s4.1.keyword_density
     readability_score := s4.1.readability_score
     generation_time := generation_time }, s4.2)

/-- The pipeline as shipped: the placeholder _gather_information collaborator
and the fresh context of BlogGenerationOrchestrator.__init__ with the default
target word count of 2000. -/
def generate_blog_post (generation_time : ℚ) (topic : Option String) :
    BlogGenerationResult × AgentContext :=
  generate_blog_post_with gather_information generation_time topic (initContext 2000)

/-- A gathering collaborator that returns an empty research record, used to
examine the pipeline on empty research results. -/
def emptyGather (_topic : String) : ResearchData :=
  { related_topics := [], key_points := [], sources := [], keywords := [] }

/- ----------------------------------------------------------------- -/
/- Helper lemmas                                                      -/
/- ----------------------------------------------------------------- -/

/-- Per-section contribution to the estimated word count: the target of the
section plus the targets of its subsections. -/
def sectionTotal (s : Section) : Nat :=
  s.target_word_count + ((s.subsections.getD []).map (fun ss => ss.target_word_count)).sum

theorem foldl_add_sub_counts (l : List Subsection) :
    ∀ t : Nat, l.foldl (fun a ss => a + ss.target_word_count) t =
      t + (l.map (fun ss => ss.target_word_count)).sum := by
  induction l with
  | nil => intro t; simp
  | cons x xs ih => intro t; simp [List.foldl, ih, Nat.add_assoc]

theorem calculate_word_count_eq_sum (sections : List Section) :
    calculate_word_count sections = (sections.map sectionTotal).sum := by
  have main : ∀ (l : List Section) (t : Nat),
      l.foldl
        (fun total s =>
          (s.subsections.getD []).foldl (fun a ss => a + ss.target_word_count)
            (total + s.target_word_count))
        t = t + (l.map sectionTotal).sum := by
    intro l
    induction l with
    | nil => intro t; simp
    | cons x xs ih =>
        intro t
        rw [List.foldl_cons, foldl_add_sub_counts, ih]
        simp only [sectionTotal, List.map_cons, List.sum_cons]
        omega
  simpa [calculate_word_count] using main sections 0

theorem sum_map_const {α : Type} (l : List α) (c : Nat) :
    (l.map (fun _ => c)).sum = c * l.length := by
  induction l with
  | nil => simp
  | cons x xs ih =>
      simp [ih, Nat.mul_succ]
      ring

theorem splitWsAux_length (l : List Char) :
    ∀ cur : List Char,
      (splitWsAux cur l).length =
        (if cur.isEmpty then 0 else 1) + countTokensAux cur.isEmpty l := by
  induction l with
  | nil => intro cur; cases cur <;> simp [splitWsAux, countTokensAux]
  | cons c rest ih =>
      intro cur
      by_cases hc : isPySpace c
      · cases cur <;> simp [splitWsAux, countTokensAux, hc, ih, Nat.add_comm]
      · cases cur <;> simp [splitWsAux, countTokensAux, hc, ih]

theorem pySplit_length (s : String) : (pySplit s).length = whitespaceTokenCount s := by
  simp [pySplit, whitespaceTokenCount, splitWsAux_length]

theorem dictGet_dictSet {α : Type} (d : List (String × α)) (k : String) (v : α)
    (a : String) :
    dictGet (dictSet d k v) a = if a = k then Option.some v else dictGet d a := by
  induction d with
  | nil =>
      by_cases h : a = k
      · subst h; simp [dictSet, dictGet]
      · simp [dictSet, dictGet, beq_iff_eq, h, Ne.symm h]
  | cons p rest ih =>
      by_cases hp : p.1 = k
      · subst hp
        by_cases h : a = p.1
        · subst h; simp [dictSet, dictGet]
        · simp [dictSet, dictGet, beq_iff_eq, h, Ne.symm h]
      · by_cases h : a = k
        · subst h
          simp [dictSet, dictGet, beq_iff_eq, hp, ih, Ne.symm hp]
        · simp [dictSet, dictGet, beq_iff_eq, hp, h, ih]

theorem dictSet_keys {α : Type} (d : List (String × α)) (k : String) (v : α) :
    (dictSet d k v).map Prod.fst =
      if k ∈ d.map Prod.fst then d.map Prod.fst else d.map Prod.fst ++ [k] := by
  induction d with
  | nil => simp [dictSet]
  | cons p rest ih =>
      by_cases hp : p.1 = k
      · subst hp; simp [dictSet]
      · by_cases hm : k ∈ rest.map Prod.fst
        · simp [dictSet, beq_iff_eq, hp, hm, ih, Ne.symm hp]
        · simp [dictSet, beq_iff_eq, hp, hm, ih, Ne.symm hp]

theorem mem_dictSet_keys {α : Type} (d : List (String × α)) (k : String) (v : α)
    (a : String) :
    a ∈ (dictSet d k v).map Prod.fst ↔ a ∈ d.map Prod.fst ∨ a = k := by
  rw [dictSet_keys]
  by_cases hm : k ∈ d.map Prod.fst
  · simp only [hm, if_true]
    constructor
    · exact fun h => Or.inl h
    · rintro (h | rfl)
      · exact h
      · exact hm
  · simp [hm]

theorem dictSet_keys_nodup {α : Type} (d : List (String × α)) (k : String) (v : α)
    (h : (d.map Prod.fst).Nodup) : ((dictSet d k v).map Prod.fst).Nodup := by
  rw [dictSet_keys]
  by_cases hm : k ∈ d.map Prod.fst
  · simpa [hm] using h
  · simp [hm, List.nodup_append, h]

theorem dictSet_values {α : Type} (d : List (String × α)) (k : String) (v : α) :
    ∀ p ∈ dictSet d k v, p.2 = v ∨ p ∈ d := by
  induction d with
  | nil => simp [dictSet]
  | cons q rest ih =>
      by_cases hq : q.1 = k
      · subst hq
        intro p hp
        simp only [dictSet, beq_self_eq_true, if_true, List.mem_cons] at hp
        rcases hp with rfl | hp
        · exact Or.inl rfl
        · exact Or.inr (List.mem_cons_of_mem _ hp)
      · intro p hp
        simp only [dictSet, beq_iff_eq, hq, if_false, List.mem_cons] at hp
        rcases hp with rfl | hp
        · exact Or.inr (List.mem_cons_self _ _)
        · rcases ih p hp with h | h
          · exact Or.inl h
          · exact Or.inr (List.mem_cons_of_mem _ h)

theorem kdFold_keys_mem (v : ℚ) (ks : List String) :
    ∀ (d : List (String × ℚ)) (a : String),
      a ∈ ((ks.foldl (fun d k => dictSet d k v) d).map Prod.fst) ↔
        a ∈ d.map Prod.fst ∨ a ∈ ks := by
  induction ks with
  | nil => intro d a; simp
  | cons k ks ih =>
      intro d a
      rw [List.foldl_cons, ih, mem_dictSet_keys]
      constructor
      · rintro ((h | rfl) | h)
        · exact Or.inl h
        · exact Or.inr (List.mem_cons_self _ _)
        · exact Or.inr (List.mem_cons_of_mem _ h)
      · rintro (h | h)
        · exact Or.inl (Or.inl h)
        · rcases List.mem_cons.mp h with rfl | h
          · exact Or.inl (Or.inr rfl)
          · exact Or.inr h

theorem kdFold_keys_nodup (v : ℚ) (ks : List String) :
    ∀ d : List (String × ℚ), (d.map Prod.fst).Nodup →
      ((ks.foldl (fun d k => dictSet d k v) d).map Prod.fst).Nodup := by
  induction ks with
  | nil => intro d h; simpa using h
  | cons k ks ih =>
      intro d h
      rw [List.foldl_cons]
      exact ih _ (dictSet_keys_nodup d k v h)

theorem kdFold_values (v : ℚ) (ks : List String) :
    ∀ d : List (String × ℚ), (∀ p ∈ d, p.2 = v) →
      ∀ p ∈ ks.foldl (fun d k => dictSet d k v) d, p.2 = v := by
  induction ks with
  | nil => intro d h; simpa using h
  | cons k ks ih =>
      intro d h
      rw [List.foldl_cons]
      refine ih _ (fun p hp => ?_)
      rcases dictSet_values d k v p hp with h2 | h2
      · exact h2
      · exact h p h2

/-- Running maximum of the relevance scores, seeded with the first
candidate score: the value Python max compares against. -/
def maxScoreFrom (x : String × ℚ) (xs : List (String × ℚ)) : ℚ :=
  xs.foldl (fun m y => max m y.2) x.2

theorem le_foldl_max (l : List (String × ℚ)) :
    ∀ b : ℚ, b ≤ l.foldl (fun m y => max m y.2) b := by
  induction l with
  | nil => intro b; simp
  | cons y ys ih => intro b; exact le_trans (le_max_left b y.2) (ih (max b y.2))

theorem pyMaxBy_eq_find (x : String × ℚ) (xs : List (String × ℚ)) :
    pyMaxBy (x :: xs) =
      (x :: xs).find? (fun y => decide (maxScoreFrom x xs ≤ y.2)) := by
  induction xs generalizing x with
  | nil => simp [pyMaxBy, maxScoreFrom, List.find?]
  | cons y ys ih =>
      have hM : maxScoreFrom x (y :: ys) =
          maxScoreFrom (if y.2 > x.2 then y else x) ys := by
        by_cases h : y.2 > x.2
        · simp [maxScoreFrom, List.foldl, h, max_eq_right (le_of_lt h)]
        · simp [maxScoreFrom, List.foldl, h, max_eq_left (le_of_not_lt h)]
      have hstep : pyMaxBy (x :: y :: ys) =
          pyMaxBy ((if y.2 > x.2 then y else x) :: ys) := rfl
      rw [hstep, ih, ← hM]
      by_cases h : y.2 > x.2
      · rw [if_pos h]
        have hyM : y.2 ≤ maxScoreFrom x (y :: ys) := by
          simpa [maxScoreFrom, List.foldl] using
            le_trans (le_max_right x.2 y.2) (le_foldl_max ys (max x.2 y.2))
        have hx : ¬ (maxScoreFrom x (y :: ys) ≤ x.2) :=
          not_le.mpr (lt_of_lt_of_le h hyM)
        exact (List.find?_cons_of_neg _ (by simpa using hx)).symm
      · rw [if_neg h]
        have hyx : y.2 ≤ x.2 := le_of_not_lt h
        by_cases hx : maxScoreFrom x (y :: ys) ≤ x.2
        · rw [List.find?_cons_of_pos _ (by simpa using hx),
            List.find?_cons_of_pos _ (by simpa using hx)]
        · have hy : ¬ (maxScoreFrom x (y :: ys) ≤ y.2) :=
            fun hle => hx (le_trans hle hyx)
          rw [List.find?_cons_of_neg _ (by simpa using hx),
            List.find?_cons_of_neg _ (by simpa using hx),
            List.find?_cons_of_neg _ (by simpa using hy)]

/- ----------------------------------------------------------------- -/
/- Claim theorems                                                     -/
/- ----------------------------------------------------------------- -/

/-- C3: for every research input with N key findings, Planning returns an
outline with exactly N+2 sections: an Introduction of 200 words, one
section of 300 words per key finding, each carrying exactly the two
subsections Current Trends and Best Practices of 150 words each, and a
Conclusion of 200 words; the estimated word count is the sum of all
section and subsection targets, namely 400 + 600*N. -/
theorem planning_outline_shape_and_word_count (research : ResearchResult)
    (ctx : AgentContext) :
    ((planningExecute research ctx).1).sections.map
        (fun s => (s.title, s.target_word_count,
          (s.subsections.getD []).map (fun ss => (ss.title, ss.target_word_count)))) =
      ("Introduction", 200, []) ::
        (research.key_findings.map
            (fun p => (p, 300, [("Current Trends", 150), ("Best Practices", 150)])) ++
          [("Conclusion", 200, [])]) ∧
    ((planningExecute research ctx).1).sections.length =
      research.key_findings.length + 2 ∧
    ((planningExecute research ctx).1).estimated_word_count =
      400 + 600 * research.key_findings.length := by
  refine ⟨?_, ?_, ?_⟩
  · simp [planningExecute, create_sections, introSection, mainSection,
      conclusionSection, List.map_map]
  · simp [planningExecute, create_sections]
  · show calculate_word_count
      (create_sections research.selected_topic research.key_findings) =
        400 + 600 * research.key_findings.length
    rw [calculate_word_count_eq_sum]
    simp only [create_sections, List.map_cons, List.map_append, List.map_map,
      List.sum_cons, List.sum_append]
    have h1 : sectionTotal introSection = 200 := by rfl
    have h2 : sectionTotal conclusionSection = 200 := by rfl
    have h3 : research.key_findings.map (sectionTotal ∘ mainSection) =
        research.key_findings.map (fun _ => 600) := by
      apply List.map_congr_left
      intro p _
      rfl
    rw [h1, h2, h3, sum_map_const]
    simp
    omega

/-- C4: the sources list is threaded through unchanged end to end during a
pipeline run: the Draft produced by Generation carries exactly the sources
of the ResearchResult, the OptimizedPost carries exactly the sources of the
Draft, and the assembled PipelineResult carries exactly the sources of the
OptimizedPost. -/
theorem sources_threaded_unchanged (gather : String → ResearchData) (gt : ℚ)
    (topic : Option String) (ctx : AgentContext) :
    ((generationExecute (planningExecute (researchExecute gather topic ctx).1
          (researchExecute gather topic ctx).2).1
        (researchExecute gather topic ctx).1
        (planningExecute (researchExecute gather topic ctx).1
          (researchExecute gather topic ctx).2).2).1).sources =
      ((researchExecute gather topic ctx).1).sources ∧
    ((seoExecute (generationExecute (planningExecute (researchExecute gather topic ctx).1
            (researchExecute gather topic ctx).2).1
          (researchExecute gather topic ctx).1
          (planningExecute (researchExecute gather topic ctx).1
            (researchExecute gather topic ctx).2).2).1
        (generationExecute (planningExecute (researchExecute gather topic ctx).1
            (researchExecute gather topic ctx).2).1
          (researchExecute gather topic ctx).1
          (planningExecute (researchExecute gather topic ctx).1
            (researchExecute gather topic ctx).2).2).2).1).sources =
      ((generationExecute (planningExecute (researchExecute gather topic ctx).1
            (researchExecute gather topic ctx).2).1
          (researchExecute gather topic ctx).1
          (planningExecute (researchExecute gather topic ctx).1
            (researchExecute gather topic ctx).2).2).1).sources ∧
    ((generate_blog_post_with gather gt topic ctx).1).sources =
      ((seoExecute (generationExecute (planningExecute
              (researchExecute gather topic ctx).1
              (researchExecute gather topic ctx).2).1
            (researchExecute gather topic ctx).1
            (planningExecute (researchExecute gather topic ctx).1
              (researchExecute gather topic ctx).2).2).1
          (generationExecute (planningExecute (researchExecute gather topic ctx).1
              (researchExecute gather topic ctx).2).1
            (researchExecute gather topic ctx).1
            (planningExecute (researchExecute gather topic ctx).1
              (researchExecute gather topic ctx).2).2).2).1).sources :=
  ⟨rfl, rfl, rfl⟩

/-- C5: for every outline, research input and context, the Draft returned
by the Generation stage has word_count equal to the whitespace-token count
of its content field, where the token count is specified independently as
the number of maximal non-whitespace runs. -/
theorem draft_word_count_is_token_count (outline : BlogOutline)
    (research : ResearchResult) (ctx : AgentContext) :
    ((generationExecute outline research ctx).1).word_count =
      whitespaceTokenCount ((generationExecute outline research ctx).1).content := by
  exact pySplit_length _

/-- C8: the Optimization stage transforms of title, meta description and
content are identities: the OptimizedPost carries the Draft fields
unchanged. -/
theorem optimization_identity_transforms (blog_post : BlogPost) (ctx : AgentContext) :
    ((seoExecute blog_post ctx).1).title = blog_post.title ∧
    ((seoExecute blog_post ctx).1).meta_description = blog_post.meta_description ∧
    ((seoExecute blog_post ctx).1).content = blog_post.content :=
  ⟨rfl, rfl, rfl⟩

/-- C9: two runs of the pipeline with the same topic and the same
deterministic gathering collaborator agree on every field of the result
except generation_time, whatever the contexts and measured times of the two
runs are; generation_time itself is exactly the measured wall-clock value
of each run. -/
theorem pipeline_deterministic_modulo_time (gather : String → ResearchData)
    (topic : Option String) (ctx1 ctx2 : AgentContext) (t1 t2 : ℚ) :
    ((generate_blog_post_with gather t1 topic ctx1).1).title =
      ((generate_blog_post_with gather t2 topic ctx2).1).title ∧
    ((generate_blog_post_with gather t1 topic ctx1).1).meta_description =
      ((generate_blog_post_with gather t2 topic ctx2).1).meta_description ∧
    ((generate_blog_post_with gather t1 topic ctx1).1).content =
      ((generate_blog_post_with gather t2 topic ctx2).1).content ∧
    ((generate_blog_post_with gather t1 topic ctx1).1).word_count =
      ((generate_blog_post_with gather t2 topic ctx2).1).word_count ∧
    ((generate_blog_post_with gather t1 topic ctx1).1).keywords =
      ((generate_blog_post_with gather t2 topic ctx2).1).keywords ∧
    ((generate_blog_post_with gather t1 topic ctx1).1).sources =
      ((generate_blog_post_with gather t2 topic ctx2).1).sources ∧
    ((generate_blog_post_with gather t1 topic ctx1).1).keyword_density =
      ((generate_blog_post_with gather t2 topic ctx2).1).keyword_density ∧
    ((generate_blog_post_with gather t1 topic ctx1).1).readability_score =
      ((generate_blog_post_with gather t2 topic ctx2).1).readability_score ∧
    ((generate_blog_post_with gather t1 topic ctx1).1).generation_time = t1 ∧
    ((generate_blog_post_with gather t2 topic ctx2).1).generation_time = t2 :=
  ⟨rfl, rfl, rfl, rfl, rfl, rfl, rfl, rfl, rfl, rfl⟩

theorem find_trending_topics_eq :
    find_trending_topics = ("Remote Work Best Practices 2024", 0.95) := by
  have h1 : ¬ ((0.92 : ℚ) > 0.95) := by norm_num
  have h2 : ¬ ((0.88 : ℚ) > 0.95) := by norm_num
  simp [find_trending_topics, pyMaxBy, trending_topics_list, List.foldl, h1, h2]

/-- C7: for every Draft input, the Optimization stage returns a keyword
density map whose key list is duplicate-free and contains exactly the
keywords of the Draft, with every value equal to 0.02 and hence within
[0,1], and a readability score equal to 75, within [0,100]. -/
theorem keyword_density_shape_and_bounds (blog_post : BlogPost) (ctx : AgentContext) :
    (∀ p ∈ ((seoExecute blog_post ctx).1).keyword_density,
        p.2 = 0.02 ∧ (0 : ℚ) ≤ p.2 ∧ p.2 ≤ 1) ∧
    (∀ k : String,
        k ∈ ((seoExecute blog_post ctx).1).keyword_density.map Prod.fst ↔
          k ∈ blog_post.keywords) ∧
    (((seoExecute blog_post ctx).1).keyword_density.map Prod.fst).Nodup ∧
    ((seoExecute blog_post ctx).1).readability_score = 75 ∧
    (0 : ℚ) ≤ ((seoExecute blog_post ctx).1).readability_score ∧
    ((seoExecute blog_post ctx).1).readability_score ≤ 100 := by
  have hkd : ((seoExecute blog_post ctx).1).keyword_density =
      blog_post.keywords.foldl (fun d k => dictSet d k 0.02) [] := rfl
  refine ⟨?_, ?_, ?_, rfl, ?_, ?_⟩
  case refine_4 => show (0 : ℚ) ≤ 75; norm_num
  case refine_5 => show (75 : ℚ) ≤ 100; norm_num
  · intro p hp
    rw [hkd] at hp
    have hv := kdFold_values 0.02 blog_post.keywords [] (by simp) p hp
    refine ⟨hv, ?_, ?_⟩
    · rw [hv]; norm_num
    · rw [hv]; norm_num
  · intro k
    rw [hkd, kdFold_keys_mem]
    simp
  · rw [hkd]
    exact kdFold_keys_nodup 0.02 blog_post.keywords [] (by simp)

/-- C6: Python max over the candidate list returns the candidate with the
maximal relevance score, breaking ties by first-seen order (it equals the
first element whose score reaches the running maximum); on the candidate
pair of the claim it selects Remote Work; and with the query absent the
Research stage selects the top hardcoded trending topic and writes it into
the shared context topic field. -/
theorem research_selects_first_max_topic :
    (∀ (x : String × ℚ) (xs : List (String × ℚ)),
        pyMaxBy (x :: xs) =
          (x :: xs).find? (fun y => decide (maxScoreFrom x xs ≤ y.2))) ∧
    pyMaxBy [("Remote Work", 0.95), ("AI in HR", 0.92)] =
      Option.some ("Remote Work", 0.95) ∧
    (∀ ctx : AgentContext,
        ((researchExecute gather_information Option.none ctx).1).selected_topic =
          "Remote Work Best Practices 2024" ∧
        ((researchExecute gather_information Option.none ctx).2).topic =
          PyVal.str "Remote Work Best Practices 2024") := by
  refine ⟨pyMaxBy_eq_find, ?_, ?_⟩
  · have h1 : ¬ ((0.92 : ℚ) > 0.95) := by norm_num
    simp [pyMaxBy, List.foldl, h1]
  · intro ctx
    constructor
    · show find_trending_topics.1 = "Remote Work Best Practices 2024"
      rw [find_trending_topics_eq]
    · show PyVal.str find_trending_topics.1 =
        PyVal.str "Remote Work Best Practices 2024"
      rw [find_trending_topics_eq]

/-- C1 counterexample: in a concrete pipeline run, the Research stage does
write the metadata keys sources and key_findings, yet after the later
stages have performed their own metadata updates both keys are gone from
the shared context metadata, because update_context assigns the metadata
record field wholesale instead of merging. -/
theorem research_metadata_keys_lost :
    (metaLookup ((researchExecute gather_information (Option.some "Remote Work")
        (initContext 2000)).2) "sources").isSome = true ∧
    metaLookup ((generate_blog_post 0 (Option.some "Remote Work")).2) "sources" =
      Option.none ∧
    metaLookup ((generate_blog_post 0 (Option.some "Remote Work")).2) "key_findings" =
      Option.none :=
  ⟨rfl, rfl, rfl⟩

/-- C1 amended: update_context merges a kwarg into the metadata map only
when its name is not an AgentContext field; the stages pass the field name
metadata itself, so each stage update replaces the whole metadata map (the
new value wins wholesale, no deep merge), and after the full pipeline the
metadata holds only the keys written by the Optimization stage.  For keys
that are not record fields, the merge into the map is last-writer-wins and
preserves all other keys. -/
theorem update_context_replaces_metadata :
    (∀ (c : AgentContext) (v : PyVal),
        (update_context c [("metadata", v)]).metadata = v) ∧
    (∀ (d : List (String × PyVal)) (k : String) (v : PyVal) (a : String),
        dictGet (dictSet d k v) a = if a = k then Option.some v else dictGet d a) ∧
    (match ((generate_blog_post 0 (Option.some "Remote Work")).2).metadata with
      | PyVal.dict d => d.map Prod.fst
      | _ => []) = ["optimized_post", "keyword_density", "readability_score"] :=
  ⟨fun _ _ => rfl, fun d k v a => dictGet_dictSet d k v a, rfl⟩

/-- C2 counterexample: with a gathering collaborator that returns empty
key findings and sources, the pipeline does not fail: the Planning stage is
invoked and produces a two-section outline, and generate_blog_post returns
a complete result that carries the empty sources list downstream (the code
defines no EmptyResearchError and performs no emptiness check). -/
theorem empty_research_reaches_output :
    ((researchExecute emptyGather (Option.some "T") (initContext 2000)).1).key_findings
        = [] ∧
    ((researchExecute emptyGather (Option.some "T") (initContext 2000)).1).sources
        = [] ∧
    ((planningExecute ((researchExecute emptyGather (Option.some "T")
          (initContext 2000)).1)
        ((researchExecute emptyGather (Option.some "T") (initContext 2000)).2)).1).sections.length
        = 2 ∧
    ((generate_blog_post_with emptyGather 0 (Option.some "T") (initContext 2000)).1).sources
        = [] ∧
    ((generate_blog_post_with emptyGather 0 (Option.some "T") (initContext 2000)).1).word_count
        = 52 :=
  ⟨rfl, rfl, rfl, rfl, by decide⟩

/-- C2 amended: the orchestrator performs no emptiness validation: for any
query and context, a gathering collaborator returning empty key findings
and sources yields a research result with empty key_findings and sources,
Planning is still invoked and reduces to the two fixed sections with an
estimated word count of 400, and the final pipeline result propagates the
empty sources list. -/
theorem pipeline_accepts_empty_research (topic : Option String) (gt : ℚ)
    (ctx : AgentContext) :
    ((researchExecute emptyGather topic ctx).1).key_findings = [] ∧
    ((researchExecute emptyGather topic ctx).1).sources = [] ∧
    ((planningExecute ((researchExecute emptyGather topic ctx).1)
        ((researchExecute emptyGather topic ctx).2)).1).sections.length = 2 ∧
    ((planningExecute ((researchExecute emptyGather topic ctx).1)
        ((researchExecute emptyGather topic ctx).2)).1).estimated_word_count = 400 ∧
    ((generate_blog_post_with emptyGather gt topic ctx).1).sources = [] :=
  ⟨rfl, rfl, rfl, rfl, rfl⟩

/-- C10: when generate_blog_post is called with an explicit non-empty
topic, no stage writes the shared context topic: the status snapshot still
reports the initial empty topic even though the generated title is derived
from the supplied topic; the context topic is written (to the selected
trending title) only when the topic argument is absent. -/
theorem explicit_topic_preserves_context_topic (gather : String → ResearchData)
    (gt : ℚ) (w : Int) (t : String) (h : t ≠ "") :
    dictGet (get_generation_status
        ((generate_blog_post_with gather gt (Option.some t) (initContext w)).2)) "topic"
      = Option.some (PyVal.str "") ∧
    ((generate_blog_post_with gather gt (Option.some t) (initContext w)).1).title
      = "The Complete Guide to " ++ t ++ ": Strategies for 2024" ∧
    ((generate_blog_post_with gather gt Option.none (initContext w)).2).topic
      = PyVal.str "Remote Work Best Practices 2024" := by
  have hb : (t == "") = false := by
    simp [h]
  refine ⟨?_, ?_, ?_⟩
  · simp [generate_blog_post_with, researchExecute, planningExecute,
      generationExecute, seoExecute, isFalsyStrOpt, hb, update_context,
      hasattrCtx, setattrCtx, get_generation_status, dictGet, initContext,
      List.foldl]
  · simp [generate_blog_post_with, researchExecute, planningExecute,
      generationExecute, seoExecute, effectiveQuery, isFalsyStrOpt, hb,
      generate_title, optimize_title]
  · show PyVal.str find_trending_topics.1 =
      PyVal.str "Remote Work Best Practices 2024"
    rw [find_trending_topics_eq]

/-- Witness for C10 at a concrete run: the topic Remote Work is non-empty,
the status snapshot after the run reports the empty initial topic, the
title is derived from the supplied topic, and the query-absent run writes
the trending title into the context. -/
theorem explicit_topic_preserves_context_topic_witness :
    dictGet (get_generation_status
        ((generate_blog_post_with gather_information 0 (Option.some "Remote Work")
          (initContext 2000)).2)) "topic"
      = Option.some (PyVal.str "") ∧
    ((generate_blog_post_with gather_information 0 (Option.some "Remote Work")
        (initContext 2000)).1).title
      = "The Complete Guide to " ++ "Remote Work" ++ ": Strategies for 2024" ∧
    ((generate_blog_post_with gather_information 0 Option.none (initContext 2000)).2).topic
      = PyVal.str "Remote Work Best Practices 2024" :=
  explicit_topic_preserves_context_topic gather_information 0 2000 "Remote Work"
    (by decide)

end MultiAgent
